import Mathlib

/-!
Shallow embedding of the conversation context manager of
`src/public/app.js` (the "Memory Management Module", ~lines 1046-1301).

Modelling conventions:
* JS strings are Lean `String`s; a possibly-`null` string is `Option String`.
* JS numbers are exact: token counts are `ℕ`, `Math.floor`/`Math.ceil`/
  `Math.round` on non-negative rationals are `Int.floor`/`Nat.ceil`/`round`
  over `ℚ`.  For the values that actually occur (context limits 4096/8192,
  so powers of two, and moderate character counts) IEEE-754 double
  arithmetic in the source computes the same results as exact rational
  arithmetic: `0.7 * 100 === 70` in JS, `c / 4096` is exact, and
  `Math.floor(4096 * 0.7) = 2867 = ⌊4096 * (7/10)⌋`.
* The async `summarizeFunc`, which may reject, is a function
  `String → Except ε String`; `prepareMessagesForContext` additionally
  returns the list of prompts it passed to `summarizeFunc` (its call log),
  making "never invokes the summarize function" expressible.  The JS
  function never throws: the single `await summarizeFunc(...)` is wrapped
  in `try/catch`, which the embedding reflects by being total.
-/

/-- Message role enum of the data model (`system`, `user`, `assistant`). -/
inductive Role where
  | system : Role
  | user : Role
  | assistant : Role
deriving DecidableEq

/-- A chat message: `{ role, content }` (the timestamp plays no part in the
context manager and is omitted). -/
structure Message where
  role : Role
  content : String
deriving DecidableEq

/-- Table `MODEL_CONTEXT_LIMITS`: the static model-id → token-limit map. -/
def MODEL_CONTEXT_LIMITS : List (String × ℕ) :=
  [("Qwen3-0.6B-q4f16_1-MLC", 4096),
   ("Llama-3.2-1B-Instruct-q4f16_1-MLC", 8192),
   ("SmolLM2-1.7B-Instruct-q4f16_1-MLC", 4096),
   ("gemma-2-2b-it-q4f16_1-MLC", 4096),
   ("Llama-3.2-3B-Instruct-q4f16_1-MLC", 8192),
   ("Phi-3.5-mini-instruct-q4f16_1-MLC", 8192)]

/-- Threshold `SUMMARIZE_THRESHOLD = 0.7` (exactly `7/10` as a rational; the JS
double `0.7` enters only products whose floor/comparison agree with the
exact value on the table's limits). -/
def SUMMARIZE_THRESHOLD : ℚ := 0.7

/-- Constant `MIN_RECENT_MESSAGES = 6`. -/
def MIN_RECENT_MESSAGES : ℕ := 6

/-- The `MODEL_CONTEXT_LIMITS[modelId] || 4096` lookup idiom repeated in
`needsSummarization`, `getContextStatus`, `prepareMessagesForContext` and
`createContextManager.getMaxTokens`.  (All table entries are positive, so
JS falsiness of `0` never triggers the default for a present key.) -/
def lookupLimit (modelId : String) : ℕ :=
  (List.lookup modelId MODEL_CONTEXT_LIMITS).getD 4096

/-- Function `estimateTokens(text)`: `if (!text) return 0; return
Math.ceil(text.length / 3.5)`.  `none` models JS `null`/`undefined`; the
emptiness test models falsiness of `""`. -/
def estimateTokens (text : Option String) : ℕ :=
  match text with
  | Option.none => 0
  | Option.some s => if s = "" then 0 else ⌈(s.length : ℚ) / 3.5⌉₊

/-- Function `estimateMessagesTokens(messages)`: reduce over the messages, adding
`estimateTokens(msg.content) + 4` to the running total (initial `0`). -/
def estimateMessagesTokens (messages : List Message) : ℕ :=
  messages.foldl (fun total msg => total + estimateTokens (Option.some msg.content) + 4) 0

/-- Function `needsSummarization(messages, modelId)`:
`currentTokens > maxTokens * SUMMARIZE_THRESHOLD`. -/
def needsSummarization (messages : List Message) (modelId : String) : Bool :=
  decide ((lookupLimit modelId : ℚ) * SUMMARIZE_THRESHOLD < (estimateMessagesTokens messages : ℚ))

/-- Result record of `getContextStatus`. -/
structure ContextStatus where
  current : ℕ
  max : ℕ
  percentage : ℤ
  needsSummarization : Bool
  isNearLimit : Bool
deriving DecidableEq

/-- Function `getContextStatus(messages, modelId)`: percentage is
`Math.round((currentTokens / maxTokens) * 100)`; the flags compare it with
`SUMMARIZE_THRESHOLD * 100` (which is exactly `70`, also in JS doubles)
and `90`. -/
def getContextStatus (messages : List Message) (modelId : String) : ContextStatus :=
  let maxTokens := lookupLimit modelId
  let currentTokens := estimateMessagesTokens messages
  let percentage : ℤ := round ((currentTokens : ℚ) / (maxTokens : ℚ) * 100)
  { current := currentTokens
    max := maxTokens
    percentage := percentage
    needsSummarization := decide (SUMMARIZE_THRESHOLD * 100 < (percentage : ℚ))
    isNearLimit := decide (90 < percentage) }

/-- JS `Array.prototype.join(sep)` on a list of strings. -/
def joinSep (sep : String) : List String → String
  | [] => ""
  | [x] => x
  | x :: y :: xs => x ++ sep ++ joinSep sep (y :: xs)

/-- The line built for one message inside `createSummarizationPrompt`:
`` `${m.role === 'user' ? 'User' : 'Assistant'}: ${m.content}` ``. -/
def messageLine (m : Message) : String :=
  (if m.role = Role.user then "User" else "Assistant") ++ ": " ++ m.content

/-- Function `createSummarizationPrompt(messages)`: the fixed template around the
`\n\n`-joined message lines. -/
def createSummarizationPrompt (messages : List Message) : String :=
  let conversationText := joinSep "\n\n" (messages.map messageLine)
  "Summarize this conversation concisely, preserving:\n- Key facts and information shared\n- User preferences mentioned\n- Important context needed for future responses\n- Any decisions or conclusions reached\n\nKeep the summary under 200 words.\n\nConversation:\n"
    ++ conversationText ++ "\n\nSummary:"

/-- Result record of `prepareMessagesForContext`:
`{ messages, summarized, summaryContext }`. -/
structure PrepareResult where
  messages : List Message
  summarized : Bool
  summaryContext : Option String
deriving DecidableEq

/-- Function `prepareMessagesForContext(messages, modelId, summarizeFunc)`.
`targetTokens = Math.floor(maxTokens * SUMMARIZE_THRESHOLD)`;
`messages.slice(-6)` is `drop (length - 6)` and `messages.slice(0, -6)` is
`take (length - 6)` (both agree with JS clamping for short lists).  The
second component of the returned pair is the instrumentation: the list of
prompts passed to `summarizeFunc`, in order (the JS body calls it at most
once).  A rejection of the JS promise is `Except.error`; the `try/catch`
around the call is the `match` on that result. -/
def prepareMessagesForContext {ε : Type} (messages : List Message) (modelId : String)
    (summarizeFunc : String → Except ε String) : PrepareResult × List String :=
  let maxTokens := lookupLimit modelId
  let targetTokens : ℤ := ⌊(maxTokens : ℚ) * SUMMARIZE_THRESHOLD⌋
  if (estimateMessagesTokens messages : ℤ) ≤ targetTokens then
    ({ messages := messages, summarized := false, summaryContext := Option.none }, [])
  else
    let recentMessages := messages.drop (messages.length - MIN_RECENT_MESSAGES)
    let olderMessages := messages.take (messages.length - MIN_RECENT_MESSAGES)
    if olderMessages.length = 0 then
      ({ messages := recentMessages, summarized := false, summaryContext := Option.none }, [])
    else
      let summaryPrompt := createSummarizationPrompt olderMessages
      match summarizeFunc summaryPrompt with
      | Except.error _ =>
          ({ messages := recentMessages, summarized := false, summaryContext := Option.none },
           [summaryPrompt])
      | Except.ok summary =>
          let summaryContext := "Previous conversation summary: " ++ summary
          ({ messages := { role := Role.system, content := summaryContext } :: recentMessages,
             summarized := true, summaryContext := Option.some summaryContext },
           [summaryPrompt])

/-- State of a `createContextManager(modelId)` instance: the two captured
mutable variables `currentModelId` and `conversationSummary`. -/
structure ContextManager where
  currentModelId : String
  conversationSummary : Option String
deriving DecidableEq

/-- Constructor `createContextManager(modelId)`: fresh instance, no summary yet. -/
def createContextManager (modelId : String) : ContextManager :=
  { currentModelId := modelId, conversationSummary := Option.none }

/-- Method `setModel(newModelId)`. -/
def ContextManager.setModel (cm : ContextManager) (newModelId : String) : ContextManager :=
  { cm with currentModelId := newModelId }

/-- Method `getMaxTokens()`. -/
def ContextManager.getMaxTokens (cm : ContextManager) : ℕ :=
  lookupLimit cm.currentModelId

/-- Method `getStatus(messages)`. -/
def ContextManager.getStatus (cm : ContextManager) (messages : List Message) : ContextStatus :=
  getContextStatus messages cm.currentModelId

/-- Alias for the module-level `needsSummarization`, reachable from inside
the `ContextManager` namespace where the method name shadows it. -/
def needsSummarizationFn : List Message → String → Bool := needsSummarization

/-- Method `needsSummarization(messages)`. -/
def ContextManager.needsSummarization (cm : ContextManager) (messages : List Message) : Bool :=
  needsSummarizationFn messages cm.currentModelId

/-- Method `prepare(messages, summarizeFunc)`: delegates, then
`if (result.summaryContext) conversationSummary = result.summaryContext`
(the emptiness test mirrors JS string truthiness; the stored value, having
a non-empty prefix, is never empty).  Returns the result together with the
updated state. -/
def ContextManager.prepare {ε : Type} (cm : ContextManager) (messages : List Message)
    (summarizeFunc : String → Except ε String) : PrepareResult × ContextManager :=
  let result := (prepareMessagesForContext messages cm.currentModelId summarizeFunc).1
  match result.summaryContext with
  | Option.some sc =>
      if sc = "" then (result, cm)
      else (result, { cm with conversationSummary := Option.some sc })
  | Option.none => (result, cm)

/-- Method `getSummary()`. -/
def ContextManager.getSummary (cm : ContextManager) : Option String :=
  cm.conversationSummary

/-- Method `clearSummary()`. -/
def ContextManager.clearSummary (cm : ContextManager) : ContextManager :=
  { cm with conversationSummary := Option.none }

/-! ### Concrete inputs used in witnesses and counterexamples -/

/-- A string of `n` copies of `'a'`. -/
def strA (n : ℕ) : String := String.mk (List.replicate n 'a')

/-- A one-message conversation, far below every threshold (6 tokens). -/
def smallMsgs : List Message := [{ role := Role.user, content := "Hello" }]

/-- A user message of 1421 characters: `ceil(1421 / 3.5) + 4 = 410` tokens. -/
def bigUserMsg : Message := { role := Role.user, content := strA 1421 }

/-- Seven copies of `bigUserMsg`: 2870 estimated tokens, just above the
4096-limit compression target of 2867 but still rounding to 70%. -/
def bigMsgs : List Message := List.replicate 7 bigUserMsg

/-- Six user messages of 1700 characters each: 2940 estimated tokens, over
the 4096-limit target with no `older` partition. -/
def shortHeavyMsgs : List Message :=
  List.replicate 6 { role := Role.user, content := strA 1700 }

/-- A system-role message, to probe the prompt's role labels. -/
def sysMsg : Message := { role := Role.system, content := "xyz123" }

/-- List `sysMsg` followed by six heavy user messages (3462 estimated tokens):
over threshold, with `older = [sysMsg]`. -/
def sysMsgs : List Message :=
  sysMsg :: List.replicate 6 { role := Role.user, content := strA 2000 }

/-! ### Arithmetic bridge lemmas

The source computes thresholds with `Math.ceil`, `Math.floor`, `Math.round`
on rationals; these lemmas restate them as natural-number division so that
concrete instances evaluate in the kernel. -/

/-- Identity `ceil(L / 3.5) = (2L + 6) / 7` in natural-number division. -/
theorem ceil_div_three_point_five (L : ℕ) :
    ⌈(L : ℚ) / 3.5⌉₊ = (2 * L + 6) / 7 := by
  rcases Nat.eq_zero_or_pos L with h0 | hL
  · subst h0; norm_num
  · have hd := Nat.div_add_mod (2 * L + 6) 7
    have hm : (2 * L + 6) % 7 < 7 := Nat.mod_lt _ (by norm_num)
    set n := (2 * L + 6) / 7 with hn
    have hn1 : 1 ≤ n := by omega
    have h1 : 2 * L ≤ 7 * n := by omega
    have h2 : 7 * n ≤ 2 * L + 6 := by omega
    rw [Nat.ceil_eq_iff (by omega)]
    constructor
    · have hc : ((n - 1 : ℕ) : ℚ) = (n : ℚ) - 1 := by
        push_cast [hn1]; ring
      rw [hc, lt_div_iff (by norm_num : (0 : ℚ) < 3.5)]
      have h2q : (7 : ℚ) * n ≤ 2 * L + 6 := by exact_mod_cast h2
      nlinarith
    · rw [div_le_iff (by norm_num : (0 : ℚ) < 3.5)]
      have h1q : (2 : ℚ) * L ≤ 7 * n := by exact_mod_cast h1
      nlinarith

/-- Evaluation of `estimateTokens` on a present string, in executable form. -/
theorem estimateTokens_some (s : String) :
    estimateTokens (Option.some s) = (2 * s.length + 6) / 7 := by
  rcases eq_or_ne s "" with h | h
  · subst h; simp [estimateTokens]
  · simp only [estimateTokens]
    rw [if_neg h, ceil_div_three_point_five]

/-- Identity `Math.floor(m * 0.7) = 7m / 10` in natural-number division. -/
theorem floor_threshold (m : ℕ) :
    ⌊(m : ℚ) * SUMMARIZE_THRESHOLD⌋ = ((7 * m / 10 : ℕ) : ℤ) := by
  have hd := Nat.div_add_mod (7 * m) 10
  have hm : (7 * m) % 10 < 10 := Nat.mod_lt _ (by norm_num)
  set q := 7 * m / 10 with hq
  have h1 : 10 * q ≤ 7 * m := by omega
  have h2 : 7 * m < 10 * q + 10 := by omega
  rw [Int.floor_eq_iff]
  constructor
  · have h1q : (10 : ℚ) * q ≤ 7 * m := by exact_mod_cast h1
    unfold SUMMARIZE_THRESHOLD
    push_cast
    nlinarith
  · have h2q : (7 : ℚ) * m < 10 * q + 10 := by exact_mod_cast h2
    unfold SUMMARIZE_THRESHOLD
    push_cast
    nlinarith

/-- Identity `Math.round((c / m) * 100) = (200c + m) / (2m)` in natural-number
division, for positive `m`. -/
theorem round_percentage (c m : ℕ) (hm : 0 < m) :
    round ((c : ℚ) / (m : ℚ) * 100) = (((200 * c + m) / (2 * m) : ℕ) : ℤ) := by
  have hd := Nat.div_add_mod (200 * c + m) (2 * m)
  have hmod : (200 * c + m) % (2 * m) < 2 * m := Nat.mod_lt _ (by omega)
  set q := (200 * c + m) / (2 * m) with hq
  have h1 : 2 * m * q ≤ 200 * c + m := by omega
  have h2 : 200 * c + m < 2 * m * q + 2 * m := by omega
  have hmq : (0 : ℚ) < m := by exact_mod_cast hm
  have heq : (c : ℚ) / m * 100 + 1 / 2 = (200 * c + m) / (2 * m) := by
    field_simp
    ring
  rw [round_eq, heq, Int.floor_eq_iff]
  constructor
  · rw [le_div_iff (by positivity : (0 : ℚ) < 2 * m)]
    have h1q : (2 : ℚ) * m * q ≤ 200 * c + m := by exact_mod_cast h1
    push_cast
    nlinarith
  · rw [div_lt_iff (by positivity : (0 : ℚ) < 2 * m)]
    have h2q : (200 : ℚ) * c + m < 2 * m * q + 2 * m := by exact_mod_cast h2
    push_cast
    nlinarith

/-- The under-threshold test of `prepareMessagesForContext`, in executable
form: `tokens ≤ Math.floor(max * 0.7)` iff `tokens ≤ 7 * max / 10`. -/
theorem prepare_within_iff (messages : List Message) (modelId : String) :
    ((estimateMessagesTokens messages : ℤ) ≤ ⌊(lookupLimit modelId : ℚ) * SUMMARIZE_THRESHOLD⌋)
      ↔ estimateMessagesTokens messages ≤ 7 * lookupLimit modelId / 10 := by
  rw [floor_threshold]
  exact_mod_cast Iff.rfl

/-! ### Branch lemmas for `prepareMessagesForContext` -/

/-- Under-threshold branch: the input is returned unchanged and
`summarizeFunc` is not called. -/
theorem prepare_of_within {ε : Type} (messages : List Message) (modelId : String)
    (f : String → Except ε String)
    (h : estimateMessagesTokens messages ≤ 7 * lookupLimit modelId / 10) :
    prepareMessagesForContext messages modelId f =
      ({ messages := messages, summarized := false, summaryContext := Option.none }, []) := by
  simp only [prepareMessagesForContext]
  rw [if_pos ((prepare_within_iff messages modelId).mpr h)]

/-- Over-threshold branch with at most `MIN_RECENT_MESSAGES` messages:
`older` is empty, the whole input (= its own recent slice) is returned and
`summarizeFunc` is not called. -/
theorem prepare_of_over_short {ε : Type} (messages : List Message) (modelId : String)
    (f : String → Except ε String)
    (h : 7 * lookupLimit modelId / 10 < estimateMessagesTokens messages)
    (hlen : messages.length ≤ MIN_RECENT_MESSAGES) :
    prepareMessagesForContext messages modelId f =
      ({ messages := messages, summarized := false, summaryContext := Option.none }, []) := by
  have hnot : ¬ ((estimateMessagesTokens messages : ℤ)
      ≤ ⌊(lookupLimit modelId : ℚ) * SUMMARIZE_THRESHOLD⌋) := by
    rw [prepare_within_iff]; omega
  have h0 : messages.length - MIN_RECENT_MESSAGES = 0 := by omega
  simp only [prepareMessagesForContext, if_neg hnot, h0]
  simp

/-- Over-threshold branch with more than `MIN_RECENT_MESSAGES` messages and
a succeeding `summarizeFunc`: summary message prepended to the recent
slice; exactly one summarize call, on the prompt over `older`. -/
theorem prepare_of_over_long_ok {ε : Type} (messages : List Message) (modelId : String)
    (f : String → Except ε String) (s : String)
    (h : 7 * lookupLimit modelId / 10 < estimateMessagesTokens messages)
    (hlen : MIN_RECENT_MESSAGES < messages.length)
    (hf : f (createSummarizationPrompt
        (messages.take (messages.length - MIN_RECENT_MESSAGES))) = Except.ok s) :
    prepareMessagesForContext messages modelId f =
      ({ messages :=
           { role := Role.system, content := "Previous conversation summary: " ++ s }
             :: messages.drop (messages.length - MIN_RECENT_MESSAGES),
         summarized := true,
         summaryContext := Option.some ("Previous conversation summary: " ++ s) },
       [createSummarizationPrompt (messages.take (messages.length - MIN_RECENT_MESSAGES))]) := by
  have hnot : ¬ ((estimateMessagesTokens messages : ℤ)
      ≤ ⌊(lookupLimit modelId : ℚ) * SUMMARIZE_THRESHOLD⌋) := by
    rw [prepare_within_iff]; omega
  have hne : ¬ ((messages.take (messages.length - MIN_RECENT_MESSAGES)).length = 0) := by
    rw [List.length_take]; omega
  simp only [prepareMessagesForContext, if_neg hnot, if_neg hne, hf]

/-- Over-threshold branch with more than `MIN_RECENT_MESSAGES` messages and
a rejecting `summarizeFunc`: the recent slice is returned with no summary;
the error is swallowed (the function still returns normally). -/
theorem prepare_of_over_long_err {ε : Type} (messages : List Message) (modelId : String)
    (f : String → Except ε String) (e : ε)
    (h : 7 * lookupLimit modelId / 10 < estimateMessagesTokens messages)
    (hlen : MIN_RECENT_MESSAGES < messages.length)
    (hf : f (createSummarizationPrompt
        (messages.take (messages.length - MIN_RECENT_MESSAGES))) = Except.error e) :
    prepareMessagesForContext messages modelId f =
      ({ messages := messages.drop (messages.length - MIN_RECENT_MESSAGES),
         summarized := false, summaryContext := Option.none },
       [createSummarizationPrompt (messages.take (messages.length - MIN_RECENT_MESSAGES))]) := by
  have hnot : ¬ ((estimateMessagesTokens messages : ℤ)
      ≤ ⌊(lookupLimit modelId : ℚ) * SUMMARIZE_THRESHOLD⌋) := by
    rw [prepare_within_iff]; omega
  have hne : ¬ ((messages.take (messages.length - MIN_RECENT_MESSAGES)).length = 0) := by
    rw [List.length_take]; omega
  simp only [prepareMessagesForContext, if_neg hnot, if_neg hne, hf]

/-! ### Evaluation lemmas for `estimateMessagesTokens` -/

/-- Shifting the accumulator out of the token fold. -/
theorem foldl_tokens_shift (ms : List Message) (init : ℕ) :
    ms.foldl (fun total msg => total + estimateTokens (Option.some msg.content) + 4) init
      = init + ms.foldl (fun total msg => total + estimateTokens (Option.some msg.content) + 4) 0 := by
  induction ms generalizing init with
  | nil => simp
  | cons m ms ih =>
    rw [List.foldl_cons, List.foldl_cons, ih, ih (0 + estimateTokens (Option.some m.content) + 4)]
    omega

/-- The token fold as a sum of per-message contributions. -/
theorem estimateMessagesTokens_eq_sum (ms : List Message) :
    estimateMessagesTokens ms
      = (ms.map (fun m => estimateTokens (Option.some m.content) + 4)).sum := by
  induction ms with
  | nil => rfl
  | cons m ms ih =>
    rw [estimateMessagesTokens, List.foldl_cons, foldl_tokens_shift, ← estimateMessagesTokens,
      ih, List.map_cons, List.sum_cons]
    omega

/-- Token total of a replicated message list. -/
theorem estimateMessagesTokens_replicate (k : ℕ) (m : Message) :
    estimateMessagesTokens (List.replicate k m)
      = k * (estimateTokens (Option.some m.content) + 4) := by
  rw [estimateMessagesTokens_eq_sum, List.map_replicate, List.sum_replicate, smul_eq_mul]

/-- Length of `strA n` is `n`. -/
theorem strA_length (n : ℕ) : (strA n).length = n := by
  simp [strA]

theorem tokens_smallMsgs : estimateMessagesTokens smallMsgs = 6 := by
  rw [smallMsgs, estimateMessagesTokens_eq_sum]
  simp only [List.map_cons, List.map_nil, List.sum_cons, List.sum_nil, estimateTokens_some]
  decide

theorem tokens_bigMsgs : estimateMessagesTokens bigMsgs = 2870 := by
  rw [bigMsgs, estimateMessagesTokens_replicate]
  simp only [bigUserMsg, estimateTokens_some, strA_length]

theorem tokens_shortHeavyMsgs : estimateMessagesTokens shortHeavyMsgs = 2940 := by
  rw [shortHeavyMsgs, estimateMessagesTokens_replicate]
  simp only [estimateTokens_some, strA_length]

theorem tokens_sysMsgs : estimateMessagesTokens sysMsgs = 3462 := by
  rw [sysMsgs, estimateMessagesTokens_eq_sum]
  simp only [List.map_cons, List.sum_cons, List.map_replicate, List.sum_replicate, smul_eq_mul,
    estimateTokens_some, strA_length, sysMsg]
  decide

/-- The over-threshold test in executable form:
`max * 0.7 < tokens` iff `7 * max / 10 < tokens` (integer tokens). -/
theorem over_threshold_iff (messages : List Message) (modelId : String) :
    ((lookupLimit modelId : ℚ) * SUMMARIZE_THRESHOLD < (estimateMessagesTokens messages : ℚ))
      ↔ 7 * lookupLimit modelId / 10 < estimateMessagesTokens messages := by
  have h : (⌊(lookupLimit modelId : ℚ) * SUMMARIZE_THRESHOLD⌋
        < (estimateMessagesTokens messages : ℤ))
      ↔ ((lookupLimit modelId : ℚ) * SUMMARIZE_THRESHOLD
        < ((estimateMessagesTokens messages : ℤ) : ℚ)) :=
    Int.floor_lt
  rw [floor_threshold] at h
  constructor
  · intro hq
    have := h.mpr (by exact_mod_cast hq)
    exact_mod_cast this
  · intro hn
    have := h.mp (by exact_mod_cast hn)
    exact_mod_cast this

/-- Predicate `needsSummarization` is the over-threshold test. -/
theorem needsSummarization_iff (messages : List Message) (modelId : String) :
    needsSummarization messages modelId = true
      ↔ 7 * lookupLimit modelId / 10 < estimateMessagesTokens messages := by
  rw [needsSummarization, decide_eq_true_iff, over_threshold_iff]

theorem lookupLimit_qwen : lookupLimit "Qwen3-0.6B-q4f16_1-MLC" = 4096 := by decide

/-! ### Substring lemmas for the summarization prompt -/

/-- A member of the joined list is a substring of the join. -/
theorem infix_joinSep (sep : String) (l : List String) (x : String) (hx : x ∈ l) :
    x.data <:+: (joinSep sep l).data := by
  induction l with
  | nil => cases hx
  | cons a l ih =>
    cases l with
    | nil =>
      rcases List.mem_singleton.mp hx with rfl
      exact List.infix_rfl
    | cons b l' =>
      rcases List.mem_cons.mp hx with rfl | hx'
      · rw [joinSep, String.data_append, String.data_append]
        exact ((List.prefix_append x.data sep.data).trans
          (List.prefix_append (x.data ++ sep.data) (joinSep sep (b :: l')).data)).isInfix
      · rw [joinSep, String.data_append]
        exact (ih hx').trans (List.suffix_append _ _).isInfix

/-- Each older message's rendered line is a substring of the prompt. -/
theorem messageLine_infix_prompt (messages : List Message) (m : Message) (hm : m ∈ messages) :
    (messageLine m).data <:+: (createSummarizationPrompt messages).data := by
  rw [createSummarizationPrompt, String.data_append, String.data_append]
  refine ((infix_joinSep "\n\n" (messages.map messageLine) (messageLine m)
    (List.mem_map_of_mem messageLine hm)).trans ?_)
  exact ((List.suffix_append _ _).isInfix).trans (List.prefix_append _ _).isInfix

/-- Any substring of the fixed template header is a substring of the
whole prompt. -/
theorem header_infix_prompt (messages : List Message) (x : String)
    (hx : x.data <:+: ("Summarize this conversation concisely, preserving:\n- Key facts and information shared\n- User preferences mentioned\n- Important context needed for future responses\n- Any decisions or conclusions reached\n\nKeep the summary under 200 words.\n\nConversation:\n" : String).data) :
    x.data <:+: (createSummarizationPrompt messages).data := by
  rw [createSummarizationPrompt, String.data_append, String.data_append]
  exact hx.trans ((List.prefix_append _ _).trans (List.prefix_append _ _)).isInfix

/-! ### Shared facts about the concrete inputs -/

theorem bigMsgs_len : MIN_RECENT_MESSAGES < bigMsgs.length := by
  simp [bigMsgs, MIN_RECENT_MESSAGES]

theorem bigMsgs_over_q :
    (lookupLimit "Qwen3-0.6B-q4f16_1-MLC" : ℚ) * SUMMARIZE_THRESHOLD
      < (estimateMessagesTokens bigMsgs : ℚ) := by
  rw [tokens_bigMsgs, lookupLimit_qwen]
  norm_num [SUMMARIZE_THRESHOLD]

theorem sysMsgs_len : MIN_RECENT_MESSAGES < sysMsgs.length := by
  simp [sysMsgs, MIN_RECENT_MESSAGES]

theorem sysMsgs_over_q :
    (lookupLimit "Qwen3-0.6B-q4f16_1-MLC" : ℚ) * SUMMARIZE_THRESHOLD
      < (estimateMessagesTokens sysMsgs : ℚ) := by
  rw [tokens_sysMsgs, lookupLimit_qwen]
  norm_num [SUMMARIZE_THRESHOLD]

/-! ### The claims -/

/-- C1: for every message list and model id with
`estimateMessagesTokens(messages) ≤ 0.7 × max` (equivalently
`≤ floor(0.7 × max)`), `prepareMessagesForContext` returns the input list
unchanged with `summarized = false` and a null summary, and never invokes
the summarize function (empty call log). -/
theorem claim_C1_below_threshold_identity {ε : Type} (messages : List Message)
    (modelId : String) (f : String → Except ε String)
    (h : (estimateMessagesTokens messages : ℚ)
      ≤ (lookupLimit modelId : ℚ) * SUMMARIZE_THRESHOLD) :
    prepareMessagesForContext messages modelId f =
      ({ messages := messages, summarized := false, summaryContext := Option.none }, []) := by
  apply prepare_of_within
  rw [← Nat.not_lt]
  intro hlt
  exact absurd ((over_threshold_iff messages modelId).mpr hlt) (not_lt.mpr h)

/-- Witness for C1 at a one-message list against the 4096-limit model. -/
theorem claim_C1_below_threshold_identity_witness :
    ((estimateMessagesTokens smallMsgs : ℚ)
      ≤ (lookupLimit "Qwen3-0.6B-q4f16_1-MLC" : ℚ) * SUMMARIZE_THRESHOLD) ∧
    prepareMessagesForContext smallMsgs "Qwen3-0.6B-q4f16_1-MLC"
        (fun _ => Except.error ()) =
      ({ messages := smallMsgs, summarized := false, summaryContext := Option.none }, []) := by
  have h : (estimateMessagesTokens smallMsgs : ℚ)
      ≤ (lookupLimit "Qwen3-0.6B-q4f16_1-MLC" : ℚ) * SUMMARIZE_THRESHOLD := by
    rw [tokens_smallMsgs, lookupLimit_qwen]
    norm_num [SUMMARIZE_THRESHOLD]
  exact ⟨h, claim_C1_below_threshold_identity smallMsgs "Qwen3-0.6B-q4f16_1-MLC" _ h⟩

/-- C2: for every over-threshold list longer than `MIN_RECENT_MESSAGES`,
if the summarize function succeeds with text `s`, the result is exactly
`1 + MIN_RECENT_MESSAGES = 7` messages: a system message whose content is
`"Previous conversation summary: "` followed by `s`, then the last 6 input
messages verbatim in order, with `summarized = true`. -/
theorem claim_C2_success_shape {ε : Type} (messages : List Message) (modelId : String)
    (f : String → Except ε String) (s : String)
    (hlen : MIN_RECENT_MESSAGES < messages.length)
    (hover : (lookupLimit modelId : ℚ) * SUMMARIZE_THRESHOLD
      < (estimateMessagesTokens messages : ℚ))
    (hf : f (createSummarizationPrompt
        (messages.take (messages.length - MIN_RECENT_MESSAGES))) = Except.ok s) :
    (prepareMessagesForContext messages modelId f).1.messages =
      { role := Role.system, content := "Previous conversation summary: " ++ s }
        :: messages.drop (messages.length - MIN_RECENT_MESSAGES) ∧
    (prepareMessagesForContext messages modelId f).1.messages.length
      = 1 + MIN_RECENT_MESSAGES ∧
    (messages.drop (messages.length - MIN_RECENT_MESSAGES)).length = MIN_RECENT_MESSAGES ∧
    (prepareMessagesForContext messages modelId f).1.summarized = true := by
  rw [prepare_of_over_long_ok messages modelId f s
    ((over_threshold_iff messages modelId).mp hover) hlen hf]
  refine ⟨rfl, ?_, ?_, rfl⟩
  · simp only [List.length_cons, List.length_drop]
    omega
  · simp only [List.length_drop]
    omega

/-- Witness for C2 at `bigMsgs` with a constant succeeding stub. -/
theorem claim_C2_success_shape_witness :
    MIN_RECENT_MESSAGES < bigMsgs.length ∧
    ((lookupLimit "Qwen3-0.6B-q4f16_1-MLC" : ℚ) * SUMMARIZE_THRESHOLD
      < (estimateMessagesTokens bigMsgs : ℚ)) ∧
    (prepareMessagesForContext bigMsgs "Qwen3-0.6B-q4f16_1-MLC"
        (fun _ => (Except.ok "Summary text." : Except Unit String))).1.messages =
      { role := Role.system, content := "Previous conversation summary: Summary text." }
        :: bigMsgs.drop (bigMsgs.length - MIN_RECENT_MESSAGES) := by
  have h := claim_C2_success_shape bigMsgs "Qwen3-0.6B-q4f16_1-MLC"
    (fun _ => (Except.ok "Summary text." : Except Unit String)) "Summary text."
    bigMsgs_len bigMsgs_over_q rfl
  exact ⟨bigMsgs_len, bigMsgs_over_q, h.1⟩

/-- C3: for every over-threshold list with a non-empty older partition,
if the summarize call rejects (with any error of any type), the error is
swallowed (the embedding is total: a result is always returned) and the
result is the last-6 suffix, of length `min(MIN_RECENT_MESSAGES, len)`,
with `summarized = false` and a null summary. -/
theorem claim_C3_failure_fallback {ε : Type} (messages : List Message)
    (modelId : String) (f : String → Except ε String) (e : ε)
    (hlen : MIN_RECENT_MESSAGES < messages.length)
    (hover : (lookupLimit modelId : ℚ) * SUMMARIZE_THRESHOLD
      < (estimateMessagesTokens messages : ℚ))
    (hf : f (createSummarizationPrompt
        (messages.take (messages.length - MIN_RECENT_MESSAGES))) = Except.error e) :
    (prepareMessagesForContext messages modelId f).1 =
      { messages := messages.drop (messages.length - MIN_RECENT_MESSAGES),
        summarized := false, summaryContext := Option.none } ∧
    (prepareMessagesForContext messages modelId f).1.messages.length
      = min MIN_RECENT_MESSAGES messages.length := by
  rw [prepare_of_over_long_err messages modelId f e
    ((over_threshold_iff messages modelId).mp hover) hlen hf]
  refine ⟨rfl, ?_⟩
  simp only [List.length_drop]
  omega

/-- Witness for C3 at `bigMsgs` with a constant rejecting stub. -/
theorem claim_C3_failure_fallback_witness :
    MIN_RECENT_MESSAGES < bigMsgs.length ∧
    ((lookupLimit "Qwen3-0.6B-q4f16_1-MLC" : ℚ) * SUMMARIZE_THRESHOLD
      < (estimateMessagesTokens bigMsgs : ℚ)) ∧
    (prepareMessagesForContext bigMsgs "Qwen3-0.6B-q4f16_1-MLC"
        (fun _ => Except.error "backend down")).1 =
      { messages := bigMsgs.drop (bigMsgs.length - MIN_RECENT_MESSAGES),
        summarized := false, summaryContext := Option.none } ∧
    (prepareMessagesForContext bigMsgs "Qwen3-0.6B-q4f16_1-MLC"
        (fun _ => Except.error "backend down")).1.messages.length
      = min MIN_RECENT_MESSAGES bigMsgs.length := by
  have h := claim_C3_failure_fallback bigMsgs "Qwen3-0.6B-q4f16_1-MLC"
    (fun _ => Except.error "backend down") "backend down" bigMsgs_len bigMsgs_over_q rfl
  exact ⟨bigMsgs_len, bigMsgs_over_q, h.1, h.2⟩

/-- C4: for every over-threshold list of at most `MIN_RECENT_MESSAGES`
messages, `prepareMessagesForContext` returns all input messages in order
(the full recent slice) with `summarized = false` and a null summary, and
never invokes the summarize function (empty call log). -/
theorem claim_C4_over_short_identity {ε : Type} (messages : List Message)
    (modelId : String) (f : String → Except ε String)
    (hlen : messages.length ≤ MIN_RECENT_MESSAGES)
    (hover : (lookupLimit modelId : ℚ) * SUMMARIZE_THRESHOLD
      < (estimateMessagesTokens messages : ℚ)) :
    prepareMessagesForContext messages modelId f =
      ({ messages := messages, summarized := false, summaryContext := Option.none }, []) :=
  prepare_of_over_short messages modelId f
    ((over_threshold_iff messages modelId).mp hover) hlen

/-- Witness for C4 at six heavy messages against the 4096-limit model. -/
theorem claim_C4_over_short_identity_witness :
    shortHeavyMsgs.length ≤ MIN_RECENT_MESSAGES ∧
    ((lookupLimit "Qwen3-0.6B-q4f16_1-MLC" : ℚ) * SUMMARIZE_THRESHOLD
      < (estimateMessagesTokens shortHeavyMsgs : ℚ)) ∧
    prepareMessagesForContext shortHeavyMsgs "Qwen3-0.6B-q4f16_1-MLC"
        (fun _ => Except.error ()) =
      ({ messages := shortHeavyMsgs, summarized := false,
         summaryContext := Option.none }, []) := by
  have hlen : shortHeavyMsgs.length ≤ MIN_RECENT_MESSAGES := by
    simp [shortHeavyMsgs, MIN_RECENT_MESSAGES]
  have hover : (lookupLimit "Qwen3-0.6B-q4f16_1-MLC" : ℚ) * SUMMARIZE_THRESHOLD
      < (estimateMessagesTokens shortHeavyMsgs : ℚ) := by
    rw [tokens_shortHeavyMsgs, lookupLimit_qwen]
    norm_num [SUMMARIZE_THRESHOLD]
  exact ⟨hlen, hover,
    claim_C4_over_short_identity shortHeavyMsgs "Qwen3-0.6B-q4f16_1-MLC" _ hlen hover⟩

/-- The stored summary context is never the empty string. -/
theorem summaryContext_ne_empty (s : String) :
    ("Previous conversation summary: " ++ s) ≠ "" := by
  intro h
  have hl := congrArg String.length h
  rw [String.length_append] at hl
  have h31 : ("Previous conversation summary: " : String).length = 31 := by decide
  have h0 : ("" : String).length = 0 := by decide
  omega

/-- C5 counterexample: with the summarize stub returning `"Summary text."`
on an over-threshold input, the summary field of `prepare`'s result is not
the raw text `"Summary text."`, and neither is what `getSummary()` returns
after the wrapper's `prepare` — both carry the prefixed string instead. -/
theorem claim_C5_counterexample :
    (prepareMessagesForContext bigMsgs "Qwen3-0.6B-q4f16_1-MLC"
        (fun _ => (Except.ok "Summary text." : Except Unit String))).1.summaryContext
      ≠ Option.some "Summary text." ∧
    ((createContextManager "Qwen3-0.6B-q4f16_1-MLC").prepare bigMsgs
        (fun _ => (Except.ok "Summary text." : Except Unit String))).2.getSummary
      ≠ Option.some "Summary text." := by
  have hp := prepare_of_over_long_ok bigMsgs "Qwen3-0.6B-q4f16_1-MLC"
    (fun _ => (Except.ok "Summary text." : Except Unit String)) "Summary text."
    ((over_threshold_iff bigMsgs "Qwen3-0.6B-q4f16_1-MLC").mp bigMsgs_over_q) bigMsgs_len rfl
  constructor
  · rw [hp]
    decide
  · simp only [ContextManager.prepare, createContextManager, hp]
    rw [if_neg (summaryContext_ne_empty "Summary text.")]
    simp only [ContextManager.getSummary]
    decide

/-- C5 (amended): on a successful compression the summary value in
`prepare`'s result record is the prefixed context string
`"Previous conversation summary: " + s` (not the raw summarize output
`s`), and the `ContextManager` wrapper stores that same prefixed string
into its state, so `getSummary()` afterwards returns it. -/
theorem claim_C5_amended_summary_roundtrip {ε : Type} (cm : ContextManager)
    (messages : List Message) (f : String → Except ε String) (s : String)
    (hlen : MIN_RECENT_MESSAGES < messages.length)
    (hover : (lookupLimit cm.currentModelId : ℚ) * SUMMARIZE_THRESHOLD
      < (estimateMessagesTokens messages : ℚ))
    (hf : f (createSummarizationPrompt
        (messages.take (messages.length - MIN_RECENT_MESSAGES))) = Except.ok s) :
    ((cm.prepare messages f).1.summaryContext
        = Option.some ("Previous conversation summary: " ++ s)) ∧
    ((cm.prepare messages f).2.getSummary
        = Option.some ("Previous conversation summary: " ++ s)) := by
  have hp := prepare_of_over_long_ok messages cm.currentModelId f s
    ((over_threshold_iff messages cm.currentModelId).mp hover) hlen hf
  constructor
  · simp only [ContextManager.prepare, hp]
    rw [if_neg (summaryContext_ne_empty s)]
  · simp only [ContextManager.prepare, hp]
    rw [if_neg (summaryContext_ne_empty s)]
    rfl

/-- Witness for the amended C5 at `bigMsgs` on a fresh manager. -/
theorem claim_C5_amended_summary_roundtrip_witness :
    MIN_RECENT_MESSAGES < bigMsgs.length ∧
    (((createContextManager "Qwen3-0.6B-q4f16_1-MLC").prepare bigMsgs
        (fun _ => (Except.ok "Summary text." : Except Unit String))).2.getSummary
      = Option.some ("Previous conversation summary: " ++ "Summary text.")) := by
  have h := claim_C5_amended_summary_roundtrip (createContextManager "Qwen3-0.6B-q4f16_1-MLC")
    bigMsgs (fun _ => (Except.ok "Summary text." : Except Unit String)) "Summary text."
    bigMsgs_len bigMsgs_over_q rfl
  exact ⟨bigMsgs_len, h.2⟩

/-- C6: for every message list and model id, `getContextStatus` returns
`max` = the profile-table limit (4096 for an absent id), `current` =
`estimateMessagesTokens(messages)`, `percentage` = round(100·current/max),
`needsSummarization` iff percentage > 70, `isNearLimit` iff
percentage > 90; the empty list gives `current = 0`.  The embedding is a
pure function, so freedom from side effects is inherent. -/
theorem claim_C6_status_fields (messages : List Message) (modelId : String) :
    (getContextStatus messages modelId).max
        = (List.lookup modelId MODEL_CONTEXT_LIMITS).getD 4096 ∧
    (getContextStatus messages modelId).current = estimateMessagesTokens messages ∧
    (getContextStatus messages modelId).percentage
        = round ((100 * (estimateMessagesTokens messages : ℚ)) / (lookupLimit modelId : ℚ)) ∧
    ((getContextStatus messages modelId).needsSummarization = true
        ↔ 70 < (getContextStatus messages modelId).percentage) ∧
    ((getContextStatus messages modelId).isNearLimit = true
        ↔ 90 < (getContextStatus messages modelId).percentage) ∧
    (getContextStatus [] modelId).current = 0 := by
  refine ⟨rfl, rfl, ?_, ?_, ?_, rfl⟩
  · simp only [getContextStatus]
    congr 1
    ring
  · simp only [getContextStatus, decide_eq_true_iff]
    have h70 : SUMMARIZE_THRESHOLD * 100 = (70 : ℚ) := by norm_num [SUMMARIZE_THRESHOLD]
    rw [h70]
    exact ⟨fun h => by exact_mod_cast h, fun h => by exact_mod_cast h⟩
  · simp only [getContextStatus, decide_eq_true_iff]

/-- C7: a concrete list (seven 1421-character user messages, 2870
estimated tokens) and the 4096-limit model where the status flag says no
summarization is needed (percentage rounds to exactly 70) while
`prepareMessagesForContext` does not return the input unchanged (2870
exceeds the raw target `floor(0.7 × 4096) = 2867`). -/
theorem claim_C7_status_prepare_disagree :
    (getContextStatus bigMsgs "Qwen3-0.6B-q4f16_1-MLC").needsSummarization = false ∧
    (prepareMessagesForContext bigMsgs "Qwen3-0.6B-q4f16_1-MLC"
        (fun _ => (Except.ok "ok" : Except Unit String))).1.messages ≠ bigMsgs := by
  constructor
  · simp only [getContextStatus, tokens_bigMsgs, lookupLimit_qwen]
    rw [round_percentage 2870 4096 (by norm_num)]
    norm_num [SUMMARIZE_THRESHOLD]
  · have hp := prepare_of_over_long_ok bigMsgs "Qwen3-0.6B-q4f16_1-MLC"
      (fun _ => (Except.ok "ok" : Except Unit String)) "ok"
      ((over_threshold_iff bigMsgs "Qwen3-0.6B-q4f16_1-MLC").mp bigMsgs_over_q) bigMsgs_len rfl
    rw [hp]
    intro hcontra
    have h0 := congrArg List.head? hcontra
    simp [bigMsgs, List.replicate, bigUserMsg] at h0

/-- C8: `estimateTokens` is a total (never-throwing) pure function
computing `ceil(length / 3.5)`; null and empty input yield 0,
`estimateTokens("a") ≥ 1`, and the result is monotone in string length. -/
theorem claim_C8_estimateTokens_spec :
    (∀ s : String, estimateTokens (Option.some s) = ⌈(s.length : ℚ) / 3.5⌉₊) ∧
    estimateTokens Option.none = 0 ∧
    estimateTokens (Option.some "") = 0 ∧
    1 ≤ estimateTokens (Option.some "a") ∧
    (∀ s t : String, s.length ≤ t.length →
      estimateTokens (Option.some s) ≤ estimateTokens (Option.some t)) := by
  refine ⟨?_, rfl, ?_, ?_, ?_⟩
  · intro s
    rw [estimateTokens_some, ceil_div_three_point_five]
  · simp [estimateTokens]
  · rw [estimateTokens_some]
    decide
  · intro s t h
    rw [estimateTokens_some, estimateTokens_some]
    exact Nat.div_le_div_right (by omega)

/-- Witness for C8's monotonicity conjunct at two concrete strings. -/
theorem claim_C8_estimateTokens_spec_witness :
    ("ab" : String).length ≤ ("abcd" : String).length ∧
    estimateTokens (Option.some "ab") ≤ estimateTokens (Option.some "abcd") :=
  ⟨by decide, claim_C8_estimateTokens_spec.2.2.2.2 "ab" "abcd" (by decide)⟩

/-- The result record of the wrapper's `prepare` is exactly the underlying
`prepareMessagesForContext` result (both branches of the state update
return it unchanged). -/
theorem ContextManager.prepare_fst {ε : Type} (cm : ContextManager)
    (messages : List Message) (f : String → Except ε String) :
    (cm.prepare messages f).1 = (prepareMessagesForContext messages cm.currentModelId f).1 := by
  simp only [ContextManager.prepare]
  rcases hsc : (prepareMessagesForContext messages cm.currentModelId f).1.summaryContext
    with _ | sc
  · rfl
  · by_cases hemp : sc = "" <;> simp [hemp]

/-- C10: `setModel` changes only the active model id: the stored summary
(and hence `getSummary()`) is untouched, and subsequent `getMaxTokens`,
`getStatus` and `prepare` calls use the new id's limit (4096 for an id
absent from the profile table). -/
theorem claim_C10_setModel_frame (cm : ContextManager) (modelId : String) :
    (cm.setModel modelId).getSummary = cm.getSummary ∧
    (cm.setModel modelId).conversationSummary = cm.conversationSummary ∧
    (cm.setModel modelId).currentModelId = modelId ∧
    (cm.setModel modelId).getMaxTokens
      = (List.lookup modelId MODEL_CONTEXT_LIMITS).getD 4096 ∧
    (∀ messages : List Message,
      (cm.setModel modelId).getStatus messages = getContextStatus messages modelId) ∧
    (∀ (ε : Type) (messages : List Message) (f : String → Except ε String),
      ((cm.setModel modelId).prepare messages f).1
        = (prepareMessagesForContext messages modelId f).1) :=
  ⟨rfl, rfl, rfl, rfl, fun _ => rfl,
   fun _ messages f => (cm.setModel modelId).prepare_fst messages f⟩

set_option maxRecDepth 100000 in
/-- C9 counterexample: at a concrete over-threshold input whose `older`
partition is a single system-role message with content `"xyz123"`, the
prompt passed to the summarize call does not contain a
`"System: xyz123"` (nor `"system: xyz123"`) line for it — the source
labels every non-user message `"Assistant"`, so the prompt contains
`"Assistant: xyz123"` instead. -/
theorem claim_C9_counterexample :
    (prepareMessagesForContext sysMsgs "Qwen3-0.6B-q4f16_1-MLC"
        (fun _ => (Except.ok "ok" : Except Unit String))).2
      = [createSummarizationPrompt [sysMsg]] ∧
    ¬ (("System: xyz123" : String).data <:+: (createSummarizationPrompt [sysMsg]).data) ∧
    ¬ (("system: xyz123" : String).data <:+: (createSummarizationPrompt [sysMsg]).data) ∧
    (("Assistant: xyz123" : String).data <:+: (createSummarizationPrompt [sysMsg]).data) := by
  refine ⟨?_, by decide, by decide, by decide⟩
  have hp := prepare_of_over_long_ok sysMsgs "Qwen3-0.6B-q4f16_1-MLC"
    (fun _ => (Except.ok "ok" : Except Unit String)) "ok"
    ((over_threshold_iff sysMsgs "Qwen3-0.6B-q4f16_1-MLC").mp sysMsgs_over_q) sysMsgs_len rfl
  rw [hp]
  have htake : sysMsgs.take (sysMsgs.length - MIN_RECENT_MESSAGES) = [sysMsg] := by
    simp [sysMsgs, MIN_RECENT_MESSAGES]
  rw [htake]

set_option maxRecDepth 100000 in
/-- C9 (amended): for every over-threshold list with non-empty `older`
partition, the prompt passed to the summarize call (the single entry of
the call log, whatever the call's outcome) contains, for each older
message, the line `"User: <content>"` if its role is `user` and
`"Assistant: <content>"` otherwise (system messages are also labelled
`"Assistant"`), and contains the fixed instructions to keep the summary
under 200 words and to preserve key facts, user preferences, important
context, and decisions. -/
theorem claim_C9_amended_prompt_shape {ε : Type} (messages : List Message) (modelId : String)
    (f : String → Except ε String)
    (hlen : MIN_RECENT_MESSAGES < messages.length)
    (hover : (lookupLimit modelId : ℚ) * SUMMARIZE_THRESHOLD
      < (estimateMessagesTokens messages : ℚ)) :
    (prepareMessagesForContext messages modelId f).2
      = [createSummarizationPrompt (messages.take (messages.length - MIN_RECENT_MESSAGES))] ∧
    (∀ m ∈ messages.take (messages.length - MIN_RECENT_MESSAGES),
      ((if m.role = Role.user then "User" else "Assistant") ++ ": " ++ m.content).data <:+:
        (createSummarizationPrompt
          (messages.take (messages.length - MIN_RECENT_MESSAGES))).data) ∧
    ("Keep the summary under 200 words." : String).data <:+:
      (createSummarizationPrompt
        (messages.take (messages.length - MIN_RECENT_MESSAGES))).data ∧
    ("- Key facts and information shared" : String).data <:+:
      (createSummarizationPrompt
        (messages.take (messages.length - MIN_RECENT_MESSAGES))).data ∧
    ("- User preferences mentioned" : String).data <:+:
      (createSummarizationPrompt
        (messages.take (messages.length - MIN_RECENT_MESSAGES))).data ∧
    ("- Important context needed for future responses" : String).data <:+:
      (createSummarizationPrompt
        (messages.take (messages.length - MIN_RECENT_MESSAGES))).data ∧
    ("- Any decisions or conclusions reached" : String).data <:+:
      (createSummarizationPrompt
        (messages.take (messages.length - MIN_RECENT_MESSAGES))).data := by
  refine ⟨?_, ?_, ?_, ?_, ?_, ?_, ?_⟩
  · rcases hc : f (createSummarizationPrompt
        (messages.take (messages.length - MIN_RECENT_MESSAGES))) with e | s
    · rw [prepare_of_over_long_err messages modelId f e
        ((over_threshold_iff messages modelId).mp hover) hlen hc]
    · rw [prepare_of_over_long_ok messages modelId f s
        ((over_threshold_iff messages modelId).mp hover) hlen hc]
  · intro m hm
    exact messageLine_infix_prompt _ m hm
  · exact header_infix_prompt _ _ (by decide)
  · exact header_infix_prompt _ _ (by decide)
  · exact header_infix_prompt _ _ (by decide)
  · exact header_infix_prompt _ _ (by decide)
  · exact header_infix_prompt _ _ (by decide)

/-- Witness for the amended C9 at `sysMsgs`. -/
theorem claim_C9_amended_prompt_shape_witness :
    MIN_RECENT_MESSAGES < sysMsgs.length ∧
    (prepareMessagesForContext sysMsgs "Qwen3-0.6B-q4f16_1-MLC"
        (fun _ => (Except.ok "ok" : Except Unit String))).2
      = [createSummarizationPrompt
          (sysMsgs.take (sysMsgs.length - MIN_RECENT_MESSAGES))] ∧
    ("Keep the summary under 200 words." : String).data <:+:
      (createSummarizationPrompt
        (sysMsgs.take (sysMsgs.length - MIN_RECENT_MESSAGES))).data := by
  have h := claim_C9_amended_prompt_shape sysMsgs "Qwen3-0.6B-q4f16_1-MLC"
    (fun _ => (Except.ok "ok" : Except Unit String)) sysMsgs_len sysMsgs_over_q
  exact ⟨sysMsgs_len, h.1, h.2.2.1⟩
